import Mathlib

/-!
# ITMTrackerFactory: tracker construction and composition

A shallow embedding of `InfiniTAM/ITMLib/Engine/ITMTrackerFactory.h`.

* A pointer `T*` is an `Option T`; `none` is `NULL`.
* A C++ function that may `throw` returns `Except Failure _`.
* A freshly allocated object is described by its class and its constructor arguments.
* The preprocessor switches `COMPILE_WITHOUT_CUDA` and `COMPILE_WITH_METAL` are a
  `CompileFlags` argument of every definition whose body they change.
-/

namespace ITMLib

/-! ## Types the header takes from its includes -/

/-- The two preprocessor switches tested by the header. -/
structure CompileFlags where
  COMPILE_WITHOUT_CUDA : Bool
  COMPILE_WITH_METAL : Bool
  deriving DecidableEq, Repr

/-- Modelled from the spec: the enumeration `ITMLibSettings::DeviceType` (its header is not part
of the sources). The three enumerators are the ones the `switch` statements name; `DEVICE_UNKNOWN`
stands for every other value, which a `switch` sends to `default:`. -/
inductive ITMLibSettings.DeviceType
  | DEVICE_CPU
  | DEVICE_CUDA
  | DEVICE_METAL
  | DEVICE_UNKNOWN (code : Nat)
  deriving DecidableEq, Repr

/-- Modelled from the spec: the enumeration `ITMLibSettings::TrackerType` (its header is not part
of the sources). `TRACKER_ICP` and `TRACKER_IMU` are the enumerators the factory names;
`TRACKER_OTHER` stands for every other tracker kind. -/
inductive ITMLibSettings.TrackerType
  | TRACKER_ICP
  | TRACKER_IMU
  | TRACKER_OTHER (code : Nat)
  deriving DecidableEq, Repr

/-- Image size, `Vector2i`. -/
structure Vector2i where
  x : Int
  y : Int
  deriving DecidableEq, Repr

/-- The value of `settings->trackingRegime`, a pointer that the factory only passes on. -/
structure TrackingRegime where
  addr : Nat
  deriving DecidableEq, Repr

/-- A C++ `float`, kept as its IEEE-754 single-precision bit pattern; the factory only passes
it on. -/
structure ITMFloat where
  bits : Nat
  deriving DecidableEq, Repr

/-- The value of an `ITMLowLevelEngine*`, which the factory only passes on. -/
structure ITMLowLevelEngine where
  addr : Nat
  deriving DecidableEq, Repr

/-- The value of an `ITMIMUCalibrator*`, which the factory only passes on. -/
structure ITMIMUCalibrator where
  addr : Nat
  deriving DecidableEq, Repr

/-- Modelled from the spec: the fields of `ITMLibSettings` that the factory reads (the header is
not part of the sources). -/
structure ITMLibSettings where
  deviceType : ITMLibSettings.DeviceType
  trackingRegime : TrackingRegime
  noHierarchyLevels : Int
  noICPRunTillLevel : Int
  depthTrackerICPThreshold : ITMFloat
  deriving DecidableEq, Repr

/-- A tracker object, described by its class and the arguments its constructor received.
The slot table of a composite tracker holds pointers to trackers, `none` being `NULL`. -/
inductive ITMTracker
  | ITMDepthTracker_CPU (imgSize : Vector2i) (trackingRegime : TrackingRegime)
      (noHierarchyLevels : Int) (noICPRunTillLevel : Int) (distThresh : ITMFloat)
      (lowLevelEngine : ITMLowLevelEngine)
  | ITMDepthTracker_CUDA (imgSize : Vector2i) (trackingRegime : TrackingRegime)
      (noHierarchyLevels : Int) (noICPRunTillLevel : Int) (distThresh : ITMFloat)
      (lowLevelEngine : ITMLowLevelEngine)
  | ITMDepthTracker_Metal (imgSize : Vector2i) (trackingRegime : TrackingRegime)
      (noHierarchyLevels : Int) (noICPRunTillLevel : Int) (distThresh : ITMFloat)
      (lowLevelEngine : ITMLowLevelEngine)
  | ITMIMUTracker (calibrator : ITMIMUCalibrator)
  | ITMCompositeTracker (trackers : List (Option ITMTracker))

/-- The conditions a call can raise. `runtime_error` is the `std::runtime_error` thrown by the
construction routines; the other three are the conditions the spec names. -/
inductive Failure
  | runtime_error (what : String)
  | TrackerKindNotRegistered
  | IndexOutOfRange
  | IncompleteComposite
  deriving DecidableEq, Repr

/-- The type `ITMTracker*`: a pointer to a tracker, `none` being `NULL`. (The one pointer the
routines dereference, `settings`, is taken to be valid and is passed as the value it points
to.) -/
abbrev TrackerPtr := Option ITMTracker

/-! ## The composite tracker (`ITMCompositeTracker.h`, included by the factory) -/

/-- Modelled from the spec: the class `ITMCompositeTracker` (its header is not part of the
sources): "an owned, fixed-length, ordered sequence of Tracker instances, each occupying a
specific slot index". The slot count is the length of the slot table. -/
structure ITMCompositeTracker where
  trackers : List TrackerPtr

namespace ITMCompositeTracker

/-- Modelled from the spec: the constructor `ITMCompositeTracker(noTrackers)`, "constructed with
a fixed slot count"; no slot is filled yet. -/
def new (noTrackers : Nat) : ITMCompositeTracker :=
  ⟨List.replicate noTrackers none⟩

/-- The slot count of a composite. -/
def noTrackers (self : ITMCompositeTracker) : Nat :=
  self.trackers.length

/-- Modelled from the spec: `SetTracker(tracker, slotIndex)` "installs `tracker` into
`slotIndex`; fails with an `IndexOutOfRange` condition if `slotIndex ≥ n`. Installing into an
already-filled slot replaces the previous occupant". -/
def SetTracker (self : ITMCompositeTracker) (tracker : TrackerPtr) (trackerId : Nat) :
    Except Failure ITMCompositeTracker :=
  if trackerId ≥ self.noTrackers then
    .error .IndexOutOfRange
  else
    .ok ⟨self.trackers.set trackerId tracker⟩

/-- The conversion of an `ITMCompositeTracker*` to an `ITMTracker*`. -/
def toTracker (self : ITMCompositeTracker) : ITMTracker :=
  .ITMCompositeTracker self.trackers

end ITMCompositeTracker

/-- The content of slot `i` of a tracker: `none` when the tracker is no composite or has no
slot `i`, `some none` for an empty slot, `some (some t)` for a slot holding `t`. -/
def ITMTracker.slot? : ITMTracker → Nat → Option TrackerPtr
  | .ITMCompositeTracker trackers, i => trackers[i]?
  | _, _ => none

/-- The slot count of a tracker: `none` when the tracker is no composite. -/
def ITMTracker.arity? : ITMTracker → Option Nat
  | .ITMCompositeTracker trackers => some trackers.length
  | _ => none

/-- One executed stage of a composite update: the slot, the pose the stage received, the pose it
produced and its success report. -/
structure StageRun (Pose : Type) where
  slot : Nat
  poseIn : Pose
  poseOut : Pose
  success : Bool
  deriving DecidableEq, Repr

/-- What an update yields: the pose estimate, the success report, and the stages a composite
executed, in the order of execution (empty for a primitive tracker). -/
structure UpdateResult (Pose : Type) where
  pose : Pose
  success : Bool
  trace : List (StageRun Pose)
  deriving DecidableEq, Repr

variable {Pose : Type}

mutual
/-- Modelled from the spec: the update operation of the shared tracker contract (the tracker
classes are not part of the sources). A primitive tracker is an external collaborator and acts
through `sem`: "given sensor data for the current frame and a previous pose estimate, produce an
updated pose estimate, and report whether tracking succeeded". A composite "fails closed with an
`IncompleteComposite` condition before attempting any update" when a slot is empty, and otherwise
runs its slots. -/
def ITMTracker.update (sem : ITMTracker → Pose → Pose × Bool) :
    ITMTracker → Pose → Except Failure (UpdateResult Pose)
  | .ITMCompositeTracker trackers, pose =>
    if trackers.all Option.isSome then
      ITMTracker.updateSlots sem trackers 0 pose
    else
      .error .IncompleteComposite
  | t, pose => .ok ⟨(sem t pose).1, (sem t pose).2, []⟩
/-- Modelled from the spec: the slots of a composite run "in ascending slot-index order,
threading the evolving pose estimate from one stage to the next"; "the composite reports failure
if any constituent stage reports failure", and stops there. `slot` is the index of the first
slot of the list. -/
def ITMTracker.updateSlots (sem : ITMTracker → Pose → Pose × Bool) :
    List TrackerPtr → Nat → Pose → Except Failure (UpdateResult Pose)
  | [], _, pose => .ok ⟨pose, true, []⟩
  | none :: _, _, _ => .error .IncompleteComposite
  | some t :: rest, slot, pose =>
    match ITMTracker.update sem t pose with
    | .error e => .error e
    | .ok r =>
      if r.success then
        match ITMTracker.updateSlots sem rest (slot + 1) r.pose with
        | .error e => .error e
        | .ok r2 => .ok ⟨r2.pose, r2.success, ⟨slot, pose, r.pose, true⟩ :: r2.trace⟩
      else
        .ok ⟨r.pose, false, [⟨slot, pose, r.pose, false⟩]⟩
end

mutual
/-- A tracker is completely constructed when every slot of every composite in it holds a
completely constructed tracker. -/
def ITMTracker.complete : ITMTracker → Bool
  | .ITMCompositeTracker trackers => ITMTracker.completeSlots trackers
  | _ => true
/-- Every slot of the table holds a completely constructed tracker. -/
def ITMTracker.completeSlots : List TrackerPtr → Bool
  | [] => true
  | none :: _ => false
  | some t :: rest => ITMTracker.complete t && ITMTracker.completeSlots rest
end

/-! ## The factory -/

/-- The typedef `Maker`: a pointer to a construction routine. -/
abbrev Maker :=
  Vector2i → ITMLibSettings → ITMLowLevelEngine → ITMIMUCalibrator → Except Failure TrackerPtr

/-- `ITMTrackerFactory::MakeICPTracker`. The `switch` yields `some` result where a branch
returns and `none` where it leaves through `break`; the `throw` after the `switch` follows. -/
def MakeICPTracker (flags : CompileFlags) (trackedImageSize : Vector2i)
    (settings : ITMLibSettings) (lowLevelEngine : ITMLowLevelEngine)
    (_imuCalibrator : ITMIMUCalibrator) : Except Failure TrackerPtr :=
  let switched : Option (Except Failure TrackerPtr) :=
    match settings.deviceType with
    | .DEVICE_CPU =>
      some (.ok (some (.ITMDepthTracker_CPU
        trackedImageSize
        settings.trackingRegime
        settings.noHierarchyLevels
        settings.noICPRunTillLevel
        settings.depthTrackerICPThreshold
        lowLevelEngine)))
    | .DEVICE_CUDA =>
      if !flags.COMPILE_WITHOUT_CUDA then
        some (.ok (some (.ITMDepthTracker_CUDA
          trackedImageSize
          settings.trackingRegime
          settings.noHierarchyLevels
          settings.noICPRunTillLevel
          settings.depthTrackerICPThreshold
          lowLevelEngine)))
      else
        none
    | .DEVICE_METAL =>
      if flags.COMPILE_WITH_METAL then
        some (.ok (some (.ITMDepthTracker_Metal
          trackedImageSize
          settings.trackingRegime
          settings.noHierarchyLevels
          settings.noICPRunTillLevel
          settings.depthTrackerICPThreshold
          lowLevelEngine)))
      else
        none
    | _ => none
  match switched with
  | some result => result
  | none => .error (.runtime_error "Failed to make ICP tracker")

/-- `ITMTrackerFactory::MakeIMUTracker`, read as `MakeICPTracker` is. A condition raised by
`SetTracker` leaves the routine. -/
def MakeIMUTracker (flags : CompileFlags) (trackedImageSize : Vector2i)
    (settings : ITMLibSettings) (lowLevelEngine : ITMLowLevelEngine)
    (imuCalibrator : ITMIMUCalibrator) : Except Failure TrackerPtr :=
  let switched : Option (Except Failure TrackerPtr) :=
    match settings.deviceType with
    | .DEVICE_CPU =>
      some (do
        let compositeTracker := ITMCompositeTracker.new 2
        let compositeTracker ← compositeTracker.SetTracker
          (some (.ITMIMUTracker imuCalibrator)) 0
        let compositeTracker ← compositeTracker.SetTracker
          (some (.ITMDepthTracker_CPU
            trackedImageSize
            settings.trackingRegime
            settings.noHierarchyLevels
            settings.noICPRunTillLevel
            settings.depthTrackerICPThreshold
            lowLevelEngine)) 1
        return some compositeTracker.toTracker)
    | .DEVICE_CUDA =>
      if !flags.COMPILE_WITHOUT_CUDA then
        some (do
          let compositeTracker := ITMCompositeTracker.new 2
          let compositeTracker ← compositeTracker.SetTracker
            (some (.ITMIMUTracker imuCalibrator)) 0
          let compositeTracker ← compositeTracker.SetTracker
            (some (.ITMDepthTracker_CUDA
              trackedImageSize
              settings.trackingRegime
              settings.noHierarchyLevels
              settings.noICPRunTillLevel
              settings.depthTrackerICPThreshold
              lowLevelEngine)) 1
          return some compositeTracker.toTracker)
      else
        none
    | .DEVICE_METAL =>
      if flags.COMPILE_WITH_METAL then
        some (do
          let compositeTracker := ITMCompositeTracker.new 2
          let compositeTracker ← compositeTracker.SetTracker
            (some (.ITMIMUTracker imuCalibrator)) 0
          let compositeTracker ← compositeTracker.SetTracker
            (some (.ITMDepthTracker_Metal
              trackedImageSize
              settings.trackingRegime
              settings.noHierarchyLevels
              settings.noICPRunTillLevel
              settings.depthTrackerICPThreshold
              lowLevelEngine)) 1
          return some compositeTracker.toTracker)
      else
        none
    | _ => none
  match switched with
  | some result => result
  | none => .error (.runtime_error "Failed to make IMU tracker")

/-- A `std::map<K, V>`: at most one entry per key. The entries are kept in the order of their
insertion; nothing in the factory observes the order. -/
structure StdMap (K V : Type) where
  entries : List (K × V)

namespace StdMap

variable {K V : Type} [DecidableEq K]

/-- The map a default constructor leaves. -/
def empty : StdMap K V :=
  ⟨[]⟩

/-- The value stored under `k`, as `find` followed by a test against `end()` gives it. -/
def find (m : StdMap K V) (k : K) : Option V :=
  (m.entries.find? (fun e => decide (e.1 = k))).map (fun e => e.2)

/-- The member `std::map::insert(value_type)`: the pair is added unless the map already holds
an entry with its key, in which case the map is left as it is. -/
def insert (m : StdMap K V) (kv : K × V) : StdMap K V :=
  match m.find kv.1 with
  | some _ => m
  | none => ⟨m.entries ++ [kv]⟩

/-- The member `std::map::size`. -/
def size (m : StdMap K V) : Nat :=
  m.entries.length

end StdMap

/-- The class `ITMTrackerFactory`; its one data member is `makers`. -/
structure ITMTrackerFactory where
  makers : StdMap ITMLibSettings.TrackerType Maker

namespace ITMTrackerFactory

/-- The constructor `ITMTrackerFactory()`. -/
def new (flags : CompileFlags) : ITMTrackerFactory :=
  let makers : StdMap ITMLibSettings.TrackerType Maker := StdMap.empty
  let makers := makers.insert (.TRACKER_ICP, MakeICPTracker flags)
  let makers := makers.insert (.TRACKER_IMU, MakeIMUTracker flags)
  ⟨makers⟩

/-- The singleton `Instance()`: the factory as its constructor leaves it. -/
def Instance (flags : CompileFlags) : ITMTrackerFactory :=
  new flags

/-- `ITMTrackerFactory::Make`, a non-const member: it yields what it returns or raises, and the
factory as the call leaves it. Its body is `return NULL;`. -/
def Make (self : ITMTrackerFactory) (_trackerType : ITMLibSettings.TrackerType)
    (_trackedImageSize : Vector2i) (_settings : ITMLibSettings)
    (_lowLevelEngine : ITMLowLevelEngine) (_imuCalibrator : ITMIMUCalibrator) :
    Except Failure TrackerPtr × ITMTrackerFactory :=
  (.ok none, self)

end ITMTrackerFactory

/-! ## Words of the specification -/

/-- The backend of device `d` is compiled in: the CPU one always, the CUDA one unless
`COMPILE_WITHOUT_CUDA`, the Metal one when `COMPILE_WITH_METAL`, no other. -/
def compiledIn (flags : CompileFlags) : ITMLibSettings.DeviceType → Bool
  | .DEVICE_CPU => true
  | .DEVICE_CUDA => !flags.COMPILE_WITHOUT_CUDA
  | .DEVICE_METAL => flags.COMPILE_WITH_METAL
  | .DEVICE_UNKNOWN _ => false

/-- The configuration of the scenario: the CPU device, 4 hierarchy levels, run-till level 1 and
the threshold `2e-2` (as a `float`, the bit pattern `0x3CA3D70A`). -/
def scenarioSettings : ITMLibSettings :=
  { deviceType := .DEVICE_CPU
    trackingRegime := ⟨1⟩
    noHierarchyLevels := 4
    noICPRunTillLevel := 1
    depthTrackerICPThreshold := ⟨0x3CA3D70A⟩ }

/-- A build with both GPU backends: CUDA not disabled, Metal enabled. -/
def allBackends : CompileFlags :=
  ⟨false, true⟩

/-- A build with the CPU backend only. -/
def cpuOnly : CompileFlags :=
  ⟨true, false⟩

open ITMLibSettings.DeviceType ITMLibSettings.TrackerType

/-- On the CPU device `MakeICPTracker` returns a CPU depth tracker, in every build. -/
theorem MakeICPTracker_CPU (flags : CompileFlags) (size : Vector2i) (s : ITMLibSettings)
    (eng : ITMLowLevelEngine) (cal : ITMIMUCalibrator) (hd : s.deviceType = DEVICE_CPU) :
    MakeICPTracker flags size s eng cal
      = .ok (some (.ITMDepthTracker_CPU size s.trackingRegime s.noHierarchyLevels
          s.noICPRunTillLevel s.depthTrackerICPThreshold eng)) := by
  simp [MakeICPTracker, hd]

/-- On the CUDA device, in a build with CUDA, `MakeICPTracker` returns a CUDA depth tracker. -/
theorem MakeICPTracker_CUDA (flags : CompileFlags) (size : Vector2i) (s : ITMLibSettings)
    (eng : ITMLowLevelEngine) (cal : ITMIMUCalibrator) (hd : s.deviceType = DEVICE_CUDA)
    (hf : flags.COMPILE_WITHOUT_CUDA = false) :
    MakeICPTracker flags size s eng cal
      = .ok (some (.ITMDepthTracker_CUDA size s.trackingRegime s.noHierarchyLevels
          s.noICPRunTillLevel s.depthTrackerICPThreshold eng)) := by
  simp [MakeICPTracker, hd, hf]

/-- On the Metal device, in a build with Metal, `MakeICPTracker` returns a Metal depth
tracker. -/
theorem MakeICPTracker_Metal (flags : CompileFlags) (size : Vector2i) (s : ITMLibSettings)
    (eng : ITMLowLevelEngine) (cal : ITMIMUCalibrator) (hd : s.deviceType = DEVICE_METAL)
    (hf : flags.COMPILE_WITH_METAL = true) :
    MakeICPTracker flags size s eng cal
      = .ok (some (.ITMDepthTracker_Metal size s.trackingRegime s.noHierarchyLevels
          s.noICPRunTillLevel s.depthTrackerICPThreshold eng)) := by
  simp [MakeICPTracker, hd, hf]

/-- On a device that is not compiled in `MakeICPTracker` reaches its `throw`. -/
theorem MakeICPTracker_not_compiled (flags : CompileFlags) (size : Vector2i)
    (s : ITMLibSettings) (eng : ITMLowLevelEngine) (cal : ITMIMUCalibrator)
    (h : compiledIn flags s.deviceType = false) :
    MakeICPTracker flags size s eng cal = .error (.runtime_error "Failed to make ICP tracker") := by
  cases hd : s.deviceType <;> simp_all [MakeICPTracker, compiledIn]

/-- On the CPU device `MakeIMUTracker` returns the composite of an IMU tracker and a CPU depth
tracker, in every build. -/
theorem MakeIMUTracker_CPU (flags : CompileFlags) (size : Vector2i) (s : ITMLibSettings)
    (eng : ITMLowLevelEngine) (cal : ITMIMUCalibrator) (hd : s.deviceType = DEVICE_CPU) :
    MakeIMUTracker flags size s eng cal
      = .ok (some (.ITMCompositeTracker [some (.ITMIMUTracker cal),
          some (.ITMDepthTracker_CPU size s.trackingRegime s.noHierarchyLevels
            s.noICPRunTillLevel s.depthTrackerICPThreshold eng)])) := by
  simp [MakeIMUTracker, hd]
  rfl

/-- On the CUDA device, in a build with CUDA, `MakeIMUTracker` returns the composite of an IMU
tracker and a CUDA depth tracker. -/
theorem MakeIMUTracker_CUDA (flags : CompileFlags) (size : Vector2i) (s : ITMLibSettings)
    (eng : ITMLowLevelEngine) (cal : ITMIMUCalibrator) (hd : s.deviceType = DEVICE_CUDA)
    (hf : flags.COMPILE_WITHOUT_CUDA = false) :
    MakeIMUTracker flags size s eng cal
      = .ok (some (.ITMCompositeTracker [some (.ITMIMUTracker cal),
          some (.ITMDepthTracker_CUDA size s.trackingRegime s.noHierarchyLevels
            s.noICPRunTillLevel s.depthTrackerICPThreshold eng)])) := by
  simp [MakeIMUTracker, hd, hf]
  rfl

/-- On the Metal device, in a build with Metal, `MakeIMUTracker` returns the composite of an
IMU tracker and a Metal depth tracker. -/
theorem MakeIMUTracker_Metal (flags : CompileFlags) (size : Vector2i) (s : ITMLibSettings)
    (eng : ITMLowLevelEngine) (cal : ITMIMUCalibrator) (hd : s.deviceType = DEVICE_METAL)
    (hf : flags.COMPILE_WITH_METAL = true) :
    MakeIMUTracker flags size s eng cal
      = .ok (some (.ITMCompositeTracker [some (.ITMIMUTracker cal),
          some (.ITMDepthTracker_Metal size s.trackingRegime s.noHierarchyLevels
            s.noICPRunTillLevel s.depthTrackerICPThreshold eng)])) := by
  simp [MakeIMUTracker, hd, hf]
  rfl

/-- On a device that is not compiled in `MakeIMUTracker` reaches its `throw`. -/
theorem MakeIMUTracker_not_compiled (flags : CompileFlags) (size : Vector2i)
    (s : ITMLibSettings) (eng : ITMLowLevelEngine) (cal : ITMIMUCalibrator)
    (h : compiledIn flags s.deviceType = false) :
    MakeIMUTracker flags size s eng cal = .error (.runtime_error "Failed to make IMU tracker") := by
  cases hd : s.deviceType <;> simp_all [MakeIMUTracker, compiledIn]

/-- Every device is either compiled in or not, and a compiled-in one is one of the three
devices the `switch` statements name, with its preprocessor switch set accordingly. -/
theorem compiledIn_cases (flags : CompileFlags) (d : ITMLibSettings.DeviceType)
    (h : compiledIn flags d = true) :
    d = DEVICE_CPU ∨ (d = DEVICE_CUDA ∧ flags.COMPILE_WITHOUT_CUDA = false)
      ∨ (d = DEVICE_METAL ∧ flags.COMPILE_WITH_METAL = true) := by
  cases d <;> simp_all [compiledIn]

/-- The two routines differ: on the scenario's configuration one yields a primitive tracker and
the other a composite. -/
theorem MakeICPTracker_ne_MakeIMUTracker (flags : CompileFlags) :
    MakeICPTracker flags ≠ MakeIMUTracker flags := by
  intro h
  have h1 := congrFun (congrFun (congrFun (congrFun h ⟨640, 480⟩) scenarioSettings) ⟨1⟩) ⟨2⟩
  rw [MakeICPTracker_CPU flags _ _ _ _ rfl, MakeIMUTracker_CPU flags _ _ _ _ rfl] at h1
  simp at h1

/-! ## The claims about the construction routines -/

/-- C3: each construction routine raises its failure (the `std::runtime_error` thrown after the
`switch`) exactly when the configured device is not compiled in or not recognised, and returns a
tracker exactly when the device is compiled in. -/
theorem construction_fails_iff_device_not_compiled (flags : CompileFlags) (size : Vector2i)
    (s : ITMLibSettings) (eng : ITMLowLevelEngine) (cal : ITMIMUCalibrator) :
    (MakeICPTracker flags size s eng cal = .error (.runtime_error "Failed to make ICP tracker")
        ↔ compiledIn flags s.deviceType = false) ∧
    (MakeIMUTracker flags size s eng cal = .error (.runtime_error "Failed to make IMU tracker")
        ↔ compiledIn flags s.deviceType = false) ∧
    ((∃ t, MakeICPTracker flags size s eng cal = .ok (some t))
        ↔ compiledIn flags s.deviceType = true) ∧
    ((∃ t, MakeIMUTracker flags size s eng cal = .ok (some t))
        ↔ compiledIn flags s.deviceType = true) := by
  cases hc : compiledIn flags s.deviceType
  · rw [MakeICPTracker_not_compiled flags size s eng cal hc,
      MakeIMUTracker_not_compiled flags size s eng cal hc]
    simp
  · rcases compiledIn_cases flags _ hc with hd | ⟨hd, hf⟩ | ⟨hd, hf⟩
    · rw [MakeICPTracker_CPU flags size s eng cal hd, MakeIMUTracker_CPU flags size s eng cal hd]
      simp
    · rw [MakeICPTracker_CUDA flags size s eng cal hd hf,
        MakeIMUTracker_CUDA flags size s eng cal hd hf]
      simp
    · rw [MakeICPTracker_Metal flags size s eng cal hd hf,
        MakeIMUTracker_Metal flags size s eng cal hd hf]
      simp

/-- C6: for a compiled-in device `MakeIMUTracker` returns a composite of exactly two slots, slot 0
holding the IMU tracker built from the given calibrator and slot 1 the depth tracker of the
device's backend built from the image size, the four settings and the engine; both slot indices
it passes to `SetTracker` are below the slot count. -/
theorem MakeIMUTracker_composite_shape (flags : CompileFlags) (size : Vector2i)
    (s : ITMLibSettings) (eng : ITMLowLevelEngine) (cal : ITMIMUCalibrator)
    (h : compiledIn flags s.deviceType = true) :
    ∃ t depth, MakeIMUTracker flags size s eng cal = .ok (some t) ∧
      t.arity? = some 2 ∧
      t.slot? 0 = some (some (.ITMIMUTracker cal)) ∧
      t.slot? 1 = some (some depth) ∧
      (s.deviceType = DEVICE_CPU →
        depth = .ITMDepthTracker_CPU size s.trackingRegime s.noHierarchyLevels
          s.noICPRunTillLevel s.depthTrackerICPThreshold eng) ∧
      (s.deviceType = DEVICE_CUDA →
        depth = .ITMDepthTracker_CUDA size s.trackingRegime s.noHierarchyLevels
          s.noICPRunTillLevel s.depthTrackerICPThreshold eng) ∧
      (s.deviceType = DEVICE_METAL →
        depth = .ITMDepthTracker_Metal size s.trackingRegime s.noHierarchyLevels
          s.noICPRunTillLevel s.depthTrackerICPThreshold eng) ∧
      0 < (ITMCompositeTracker.new 2).noTrackers ∧
      1 < (ITMCompositeTracker.new 2).noTrackers := by
  rcases compiledIn_cases flags _ h with hd | ⟨hd, hf⟩ | ⟨hd, hf⟩
  · exact ⟨_, _, MakeIMUTracker_CPU flags size s eng cal hd, rfl, rfl, rfl,
      fun _ => rfl, by simp [hd], by simp [hd], by decide, by decide⟩
  · exact ⟨_, _, MakeIMUTracker_CUDA flags size s eng cal hd hf, rfl, rfl, rfl,
      by simp [hd], fun _ => rfl, by simp [hd], by decide, by decide⟩
  · exact ⟨_, _, MakeIMUTracker_Metal flags size s eng cal hd hf, rfl, rfl, rfl,
      by simp [hd], by simp [hd], fun _ => rfl, by decide, by decide⟩

/-- The witness of `MakeIMUTracker_composite_shape`: the scenario's configuration in a build with
the CPU backend only. -/
theorem MakeIMUTracker_composite_shape_witness :
    compiledIn cpuOnly scenarioSettings.deviceType = true ∧
    ∃ t depth, MakeIMUTracker cpuOnly ⟨640, 480⟩ scenarioSettings ⟨1⟩ ⟨2⟩ = .ok (some t) ∧
      t.arity? = some 2 ∧
      t.slot? 0 = some (some (.ITMIMUTracker ⟨2⟩)) ∧
      t.slot? 1 = some (some depth) ∧
      (scenarioSettings.deviceType = DEVICE_CPU →
        depth = .ITMDepthTracker_CPU ⟨640, 480⟩ scenarioSettings.trackingRegime
          scenarioSettings.noHierarchyLevels scenarioSettings.noICPRunTillLevel
          scenarioSettings.depthTrackerICPThreshold ⟨1⟩) ∧
      (scenarioSettings.deviceType = DEVICE_CUDA →
        depth = .ITMDepthTracker_CUDA ⟨640, 480⟩ scenarioSettings.trackingRegime
          scenarioSettings.noHierarchyLevels scenarioSettings.noICPRunTillLevel
          scenarioSettings.depthTrackerICPThreshold ⟨1⟩) ∧
      (scenarioSettings.deviceType = DEVICE_METAL →
        depth = .ITMDepthTracker_Metal ⟨640, 480⟩ scenarioSettings.trackingRegime
          scenarioSettings.noHierarchyLevels scenarioSettings.noICPRunTillLevel
          scenarioSettings.depthTrackerICPThreshold ⟨1⟩) ∧
      0 < (ITMCompositeTracker.new 2).noTrackers ∧
      1 < (ITMCompositeTracker.new 2).noTrackers :=
  ⟨rfl, MakeIMUTracker_composite_shape cpuOnly ⟨640, 480⟩ scenarioSettings ⟨1⟩ ⟨2⟩ rfl⟩

/-- C7: for a compiled-in device `MakeICPTracker` returns one primitive depth tracker, of the
device's own backend, built from the image size, the tracking regime, the hierarchy depth, the
run-till level, the threshold and the engine in this order and unchanged; the calibrator has no
influence on what the routine yields. -/
theorem MakeICPTracker_backend (flags : CompileFlags) (size : Vector2i)
    (s : ITMLibSettings) (eng : ITMLowLevelEngine) (cal : ITMIMUCalibrator)
    (h : compiledIn flags s.deviceType = true) :
    (s.deviceType = DEVICE_CPU →
      MakeICPTracker flags size s eng cal
        = .ok (some (.ITMDepthTracker_CPU size s.trackingRegime s.noHierarchyLevels
            s.noICPRunTillLevel s.depthTrackerICPThreshold eng))) ∧
    (s.deviceType = DEVICE_CUDA →
      MakeICPTracker flags size s eng cal
        = .ok (some (.ITMDepthTracker_CUDA size s.trackingRegime s.noHierarchyLevels
            s.noICPRunTillLevel s.depthTrackerICPThreshold eng))) ∧
    (s.deviceType = DEVICE_METAL →
      MakeICPTracker flags size s eng cal
        = .ok (some (.ITMDepthTracker_Metal size s.trackingRegime s.noHierarchyLevels
            s.noICPRunTillLevel s.depthTrackerICPThreshold eng))) ∧
    (∃ t, MakeICPTracker flags size s eng cal = .ok (some t) ∧ t.arity? = none) ∧
    (∀ cal2, MakeICPTracker flags size s eng cal2 = MakeICPTracker flags size s eng cal) := by
  refine ⟨fun hd => MakeICPTracker_CPU flags size s eng cal hd, fun hd => ?_, fun hd => ?_, ?_,
    fun _ => rfl⟩
  · exact MakeICPTracker_CUDA flags size s eng cal hd (by simpa [compiledIn, hd] using h)
  · exact MakeICPTracker_Metal flags size s eng cal hd (by simpa [compiledIn, hd] using h)
  · rcases compiledIn_cases flags _ h with hd | ⟨hd, hf⟩ | ⟨hd, hf⟩
    · exact ⟨_, MakeICPTracker_CPU flags size s eng cal hd, rfl⟩
    · exact ⟨_, MakeICPTracker_CUDA flags size s eng cal hd hf, rfl⟩
    · exact ⟨_, MakeICPTracker_Metal flags size s eng cal hd hf, rfl⟩

/-- The witness of `MakeICPTracker_backend`: the CUDA device in a build with every backend. -/
theorem MakeICPTracker_backend_witness :
    compiledIn allBackends DEVICE_CUDA = true ∧
    MakeICPTracker allBackends ⟨640, 480⟩ ⟨DEVICE_CUDA, ⟨1⟩, 4, 1, ⟨0x3CA3D70A⟩⟩ ⟨1⟩ ⟨2⟩
      = .ok (some (.ITMDepthTracker_CUDA ⟨640, 480⟩ ⟨1⟩ 4 1 ⟨0x3CA3D70A⟩ ⟨1⟩)) :=
  ⟨rfl, (MakeICPTracker_backend allBackends ⟨640, 480⟩ ⟨DEVICE_CUDA, ⟨1⟩, 4, 1, ⟨0x3CA3D70A⟩⟩
    ⟨1⟩ ⟨2⟩ rfl).2.1 rfl⟩

/-- C9: on the same inputs and compile flags `MakeIMUTracker` returns a tracker exactly when
`MakeICPTracker` does, and then slot 1 of the composite it returns holds the very tracker that
`MakeICPTracker` returns. -/
theorem MakeIMUTracker_slot1_eq_MakeICPTracker (flags : CompileFlags) (size : Vector2i)
    (s : ITMLibSettings) (eng : ITMLowLevelEngine) (cal : ITMIMUCalibrator) :
    ((∃ c, MakeIMUTracker flags size s eng cal = .ok c)
        ↔ (∃ p, MakeICPTracker flags size s eng cal = .ok p)) ∧
    (∀ p, MakeICPTracker flags size s eng cal = .ok p →
      ∃ c, MakeIMUTracker flags size s eng cal = .ok (some c) ∧ c.slot? 1 = some p) ∧
    (∀ c, MakeIMUTracker flags size s eng cal = .ok c →
      ∃ t, c = some t ∧ MakeICPTracker flags size s eng cal = .ok (t.slot? 1).join) := by
  cases hc : compiledIn flags s.deviceType
  · rw [MakeICPTracker_not_compiled flags size s eng cal hc,
      MakeIMUTracker_not_compiled flags size s eng cal hc]
    simp
  · rcases compiledIn_cases flags _ hc with hd | ⟨hd, hf⟩ | ⟨hd, hf⟩
    · rw [MakeICPTracker_CPU flags size s eng cal hd, MakeIMUTracker_CPU flags size s eng cal hd]
      refine ⟨by simp, ?_, ?_⟩
      · intro p hp
        cases hp
        exact ⟨_, rfl, rfl⟩
      · intro c hc2
        cases hc2
        exact ⟨_, rfl, rfl⟩
    · rw [MakeICPTracker_CUDA flags size s eng cal hd hf,
        MakeIMUTracker_CUDA flags size s eng cal hd hf]
      refine ⟨by simp, ?_, ?_⟩
      · intro p hp
        cases hp
        exact ⟨_, rfl, rfl⟩
      · intro c hc2
        cases hc2
        exact ⟨_, rfl, rfl⟩
    · rw [MakeICPTracker_Metal flags size s eng cal hd hf,
        MakeIMUTracker_Metal flags size s eng cal hd hf]
      refine ⟨by simp, ?_, ?_⟩
      · intro p hp
        cases hp
        exact ⟨_, rfl, rfl⟩
      · intro c hc2
        cases hc2
        exact ⟨_, rfl, rfl⟩

/-- The witness of `MakeIMUTracker_slot1_eq_MakeICPTracker`: the Metal device in a build with
every backend. -/
theorem MakeIMUTracker_slot1_eq_MakeICPTracker_witness :
    MakeICPTracker allBackends ⟨640, 480⟩ ⟨DEVICE_METAL, ⟨1⟩, 4, 1, ⟨0x3CA3D70A⟩⟩ ⟨1⟩ ⟨2⟩
      = .ok (some (.ITMDepthTracker_Metal ⟨640, 480⟩ ⟨1⟩ 4 1 ⟨0x3CA3D70A⟩ ⟨1⟩)) ∧
    ∃ c, MakeIMUTracker allBackends ⟨640, 480⟩ ⟨DEVICE_METAL, ⟨1⟩, 4, 1, ⟨0x3CA3D70A⟩⟩ ⟨1⟩ ⟨2⟩
        = .ok (some c) ∧
      c.slot? 1 = some (some (.ITMDepthTracker_Metal ⟨640, 480⟩ ⟨1⟩ 4 1 ⟨0x3CA3D70A⟩ ⟨1⟩)) :=
  ⟨rfl, (MakeIMUTracker_slot1_eq_MakeICPTracker allBackends ⟨640, 480⟩
    ⟨DEVICE_METAL, ⟨1⟩, 4, 1, ⟨0x3CA3D70A⟩⟩ ⟨1⟩ ⟨2⟩).2.1 _ rfl⟩

/-! ## The registry -/

namespace StdMap

variable {K V : Type} [DecidableEq K]

/-- After `insert` the key holds the value it held before, or the inserted one if it held
none. -/
theorem find_insert_self (m : StdMap K V) (k : K) (v : V) :
    (m.insert (k, v)).find k = some ((m.find k).getD v) := by
  unfold insert
  cases hf : m.find k with
  | some w => simp [hf]
  | none =>
    have hnone : List.find? (fun e => decide (e.1 = k)) m.entries = none := by
      simpa [find] using hf
    simp [find, List.find?_append, hnone]

/-- An `insert` under a key that has an entry leaves the map as it is. -/
theorem insert_of_find_eq_some (m : StdMap K V) (k : K) (v w : V) (h : m.find k = some w) :
    m.insert (k, v) = m := by
  simp [insert, h]

end StdMap

/-- What `Make` yields for every factory and every argument list: `NULL`, no condition, and the
factory it was called on. -/
theorem ITMTrackerFactory.Make_eq (self : ITMTrackerFactory) (k : ITMLibSettings.TrackerType)
    (size : Vector2i) (s : ITMLibSettings) (eng : ITMLowLevelEngine) (cal : ITMIMUCalibrator) :
    self.Make k size s eng cal = (.ok none, self) :=
  rfl

/-- C10: the registry of a freshly constructed factory holds exactly two entries, `TRACKER_ICP`
with `MakeICPTracker` and `TRACKER_IMU` with `MakeIMUTracker` (two different routines), no other
kind has an entry, and `Make` leaves whatever factory it is called on as it was. -/
theorem fresh_registry_two_entries_and_Make_preserves (flags : CompileFlags) :
    (ITMTrackerFactory.new flags).makers.entries
        = [(TRACKER_ICP, MakeICPTracker flags), (TRACKER_IMU, MakeIMUTracker flags)] ∧
    (ITMTrackerFactory.new flags).makers.size = 2 ∧
    (ITMTrackerFactory.new flags).makers.find TRACKER_ICP = some (MakeICPTracker flags) ∧
    (ITMTrackerFactory.new flags).makers.find TRACKER_IMU = some (MakeIMUTracker flags) ∧
    (∀ code, (ITMTrackerFactory.new flags).makers.find (TRACKER_OTHER code) = none) ∧
    MakeICPTracker flags ≠ MakeIMUTracker flags ∧
    (∀ (self : ITMTrackerFactory) k size s eng cal,
      (self.Make k size s eng cal).2 = self) :=
  ⟨rfl, rfl, rfl, rfl, fun _ => rfl, MakeICPTracker_ne_MakeIMUTracker flags,
    fun _ _ _ _ _ _ => rfl⟩

/-- C1, the code at the failing input: in a CPU-only build the registry holds `MakeICPTracker`
under `TRACKER_ICP`, the CPU device is compiled in and the routine itself yields a CPU depth
tracker for the scenario's configuration, yet `Make` returns `NULL`. -/
theorem Make_registered_kind_returns_null :
    (ITMTrackerFactory.Instance cpuOnly).makers.find TRACKER_ICP
      = some (MakeICPTracker cpuOnly) ∧
    compiledIn cpuOnly scenarioSettings.deviceType = true ∧
    MakeICPTracker cpuOnly ⟨640, 480⟩ scenarioSettings ⟨1⟩ ⟨2⟩
      = .ok (some (.ITMDepthTracker_CPU ⟨640, 480⟩ ⟨1⟩ 4 1 ⟨0x3CA3D70A⟩ ⟨1⟩)) ∧
    ((ITMTrackerFactory.Instance cpuOnly).Make TRACKER_ICP ⟨640, 480⟩ scenarioSettings
      ⟨1⟩ ⟨2⟩).1 = .ok none :=
  ⟨rfl, rfl, rfl, rfl⟩

/-- C2, the code at the failing input: the registry has no entry for the kind `TRACKER_OTHER 0`,
yet `Make` raises nothing for it, `TrackerKindNotRegistered` in particular, and returns `NULL`. -/
theorem Make_unregistered_kind_returns_null :
    (ITMTrackerFactory.Instance cpuOnly).makers.find (TRACKER_OTHER 0) = none ∧
    ((ITMTrackerFactory.Instance cpuOnly).Make (TRACKER_OTHER 0) ⟨640, 480⟩ scenarioSettings
      ⟨1⟩ ⟨2⟩).1 = .ok none ∧
    ((ITMTrackerFactory.Instance cpuOnly).Make (TRACKER_OTHER 0) ⟨640, 480⟩ scenarioSettings
      ⟨1⟩ ⟨2⟩).1 ≠ .error .TrackerKindNotRegistered :=
  ⟨rfl, rfl, by simp [ITMTrackerFactory.Make]⟩

/-! ## The composite update -/

/-- The update of a primitive tracker is what `sem` gives for it. -/
theorem update_primitive (sem : ITMTracker → Pose → Pose × Bool) (t : ITMTracker)
    (h : t.arity? = none) (p : Pose) :
    ITMTracker.update sem t p = .ok ⟨(sem t p).1, (sem t p).2, []⟩ := by
  cases t <;> simp [ITMTracker.arity?] at h <;> simp [ITMTracker.update]

/-- The run of a fully filled slot table raises no condition when no stage does. -/
theorem updateSlots_raises_nothing (sem : ITMTracker → Pose → Pose × Bool)
    (slots : List TrackerPtr) :
    ∀ (i0 : Nat) (p0 : Pose), slots.all Option.isSome = true →
      (∀ t, some t ∈ slots → ∀ p, ∃ r, ITMTracker.update sem t p = .ok r) →
      ∃ r, ITMTracker.updateSlots sem slots i0 p0 = .ok r := by
  induction slots with
  | nil =>
    intro i0 p0 _ _
    simp [ITMTracker.updateSlots]
  | cons s rest ih =>
    intro i0 p0 hfull hok
    cases s with
    | none => simp at hfull
    | some t =>
      have hfull2 : rest.all Option.isSome = true := by
        simp only [List.all_cons, Bool.and_eq_true] at hfull
        exact hfull.2
      obtain ⟨r1, h1⟩ := hok t (by simp) p0
      cases hs : r1.success with
      | false => simp [ITMTracker.updateSlots, h1, hs]
      | true =>
        obtain ⟨r2, h2⟩ :=
          ih (i0 + 1) r1.pose hfull2 (fun t2 ht2 => hok t2 (List.mem_cons_of_mem _ ht2))
        simp [ITMTracker.updateSlots, h1, hs, h2]

/-- The update of a composite of two primitive trackers raises no condition. -/
theorem update_pair_of_primitives (sem : ITMTracker → Pose → Pose × Bool) (a b : ITMTracker)
    (ha : a.arity? = none) (hb : b.arity? = none) (p : Pose) :
    ∃ r, ITMTracker.update sem (.ITMCompositeTracker [some a, some b]) p = .ok r := by
  have hrun := updateSlots_raises_nothing sem [some a, some b] 0 p rfl (by
    intro t ht q
    simp only [List.mem_cons, Option.some.injEq, List.mem_singleton, List.not_mem_nil,
      or_false] at ht
    rcases ht with rfl | rfl
    · exact ⟨_, update_primitive sem _ ha q⟩
    · exact ⟨_, update_primitive sem _ hb q⟩)
  obtain ⟨r, hr⟩ := hrun
  exact ⟨r, by simp [ITMTracker.update, hr]⟩

/-- C8: each construction routine either raises a condition and returns nothing, or returns a
non-null, completely constructed tracker; the composite `MakeIMUTracker` returns has a non-null
tracker in every one of its slots, and an update of a tracker obtained from either routine
raises no condition, `IncompleteComposite` in particular. -/
theorem construction_all_or_nothing (flags : CompileFlags) (size : Vector2i)
    (s : ITMLibSettings) (eng : ITMLowLevelEngine) (cal : ITMIMUCalibrator)
    (sem : ITMTracker → Pose → Pose × Bool) (p : Pose) :
    ((∃ e, MakeICPTracker flags size s eng cal = .error e) ∨
      (∃ t, MakeICPTracker flags size s eng cal = .ok (some t) ∧ t.complete = true ∧
        ∃ r, ITMTracker.update sem t p = .ok r)) ∧
    ((∃ e, MakeIMUTracker flags size s eng cal = .error e) ∨
      (∃ t, MakeIMUTracker flags size s eng cal = .ok (some t) ∧ t.complete = true ∧
        (∃ n, t.arity? = some n ∧ ∀ i : Fin n, ∃ u, t.slot? i.val = some (some u)) ∧
        ∃ r, ITMTracker.update sem t p = .ok r)) := by
  have hslots : ∀ (a b : ITMTracker) (i : Fin 2),
      ∃ u, (ITMTracker.ITMCompositeTracker [some a, some b]).slot? i.val = some (some u) := by
    intro a b i
    fin_cases i
    · exact ⟨a, rfl⟩
    · exact ⟨b, rfl⟩
  cases hc : compiledIn flags s.deviceType
  · exact ⟨.inl ⟨_, MakeICPTracker_not_compiled flags size s eng cal hc⟩,
      .inl ⟨_, MakeIMUTracker_not_compiled flags size s eng cal hc⟩⟩
  · rcases compiledIn_cases flags _ hc with hd | ⟨hd, hf⟩ | ⟨hd, hf⟩
    · exact ⟨.inr ⟨_, MakeICPTracker_CPU flags size s eng cal hd, rfl, _, rfl⟩,
        .inr ⟨_, MakeIMUTracker_CPU flags size s eng cal hd, rfl, ⟨2, rfl, hslots _ _⟩,
          update_pair_of_primitives sem _ _ (by rfl) (by rfl) p⟩⟩
    · exact ⟨.inr ⟨_, MakeICPTracker_CUDA flags size s eng cal hd hf, rfl, _, rfl⟩,
        .inr ⟨_, MakeIMUTracker_CUDA flags size s eng cal hd hf, rfl, ⟨2, rfl, hslots _ _⟩,
          update_pair_of_primitives sem _ _ (by rfl) (by rfl) p⟩⟩
    · exact ⟨.inr ⟨_, MakeICPTracker_Metal flags size s eng cal hd hf, rfl, _, rfl⟩,
        .inr ⟨_, MakeIMUTracker_Metal flags size s eng cal hd hf, rfl, ⟨2, rfl, hslots _ _⟩,
          update_pair_of_primitives sem _ _ (by rfl) (by rfl) p⟩⟩

end ITMLib
